import Mathlib

/-!
Shallow embedding of the issue-sync reconciliation and markup-translation
engine (lib/issues.go), together with theorems checking the specification's
claims against it.

The markup translator is embedded at the level of `List Char`.  Each Go
regular-expression substitution is modelled by a scanner that implements the
same leftmost, shortest-match (the Go patterns all carry the ungreedy flag),
non-overlapping global replacement on the concrete pattern of that rule.
Scanners take a fuel argument so that they are structurally recursive; the
wrappers pass `length + 1` fuel, which is enough because every step of a
scanner consumes at least one character of its input.
-/

namespace IssueSync

/-- First occurrence split: `splitAtPat pat s = some (pre, post)` when
`s = pre ++ pat ++ post` and `pat` occurs nowhere earlier. -/
def splitAtPat (pat : List Char) : List Char → Option (List Char × List Char)
  | [] => none
  | c :: rest =>
    if pat.isPrefixOf (c :: rest) then some ([], (c :: rest).drop pat.length)
    else
      match splitAtPat pat rest with
      | some (pre, post) => some (c :: pre, post)
      | none => none

/-- Pair-delimited ungreedy replacement: `dl content dr` becomes `l content r`,
for the rules such as strong, emphasis, citation, monospace and the
angle-bracket link.  Models Go `ReplaceAllString` for `(?U)dl([\s\S]*)dr`. -/
def pairReplF (dl dr l r : List Char) : Nat → List Char → List Char
  | 0, s => s
  | Nat.succ fuel, s =>
    match splitAtPat dl s with
    | none => s
    | some (pre, rest) =>
      match splitAtPat dr rest with
      | none => s
      | some (mid, post) => pre ++ l ++ mid ++ r ++ pairReplF dl dr l r fuel post

def pairRepl (dl dr l r : List Char) (s : List Char) : List Char :=
  pairReplF dl dr l r (s.length + 1) s

/-- The deleted-text rule: Go pattern (?U)~~([\s\S])~~ with a single-character
group, replacement -$1-.  When the character after an opening ~~ is not
followed by ~~, the scan restarts one character after that opening, as the
regular-expression engine does. -/
def delReplF : Nat → List Char → List Char
  | 0, s => s
  | Nat.succ fuel, s =>
    match splitAtPat "~~".data s with
    | none => s
    | some (pre, rest) =>
      match rest with
      | [] => s
      | c :: rest' =>
        if "~~".data.isPrefixOf rest' then
          pre ++ '-' :: c :: '-' :: delReplF fuel (rest'.drop 2)
        else
          pre ++ '~' :: delReplF fuel ('~' :: c :: rest')

def delRepl (s : List Char) : List Char := delReplF (s.length + 1) s

/-- The image rule: Go pattern (?U)!\[(.*)\]\((.*)\), replacement
!$2|width=600! (the alt text is dropped). -/
def imageReplF : Nat → List Char → List Char
  | 0, s => s
  | Nat.succ fuel, s =>
    match splitAtPat "![".data s with
    | none => s
    | some (pre, r1) =>
      match splitAtPat "](".data r1 with
      | none => s
      | some (_alt, r2) =>
        match splitAtPat ")".data r2 with
        | none => s
        | some (url, post) =>
          pre ++ "!".data ++ url ++ "|width=600!".data ++ imageReplF fuel post

def imageRepl (s : List Char) : List Char := imageReplF (s.length + 1) s

/-- The alternative-link rule: Go pattern (?U)\[(.*)\]\((.*)\), replacement
[$1|$2]. -/
def altURLReplF : Nat → List Char → List Char
  | 0, s => s
  | Nat.succ fuel, s =>
    match splitAtPat "[".data s with
    | none => s
    | some (pre, r1) =>
      match splitAtPat "](".data r1 with
      | none => s
      | some (alt, r2) =>
        match splitAtPat ")".data r2 with
        | none => s
        | some (url, post) =>
          pre ++ "[".data ++ alt ++ "|".data ++ url ++ "]".data ++ altURLReplF fuel post

def altURLRepl (s : List Char) : List Char := altURLReplF (s.length + 1) s

/-- RE2 whitespace class \s. -/
def isSpaceRE (c : Char) : Bool :=
  c == ' ' || c == '\t' || c == '\n' || c == '\r' || c == '\x0c'

/-- RE2 word class \w. -/
def isWordChar (c : Char) : Bool := c.isAlphanum || c == '_'

/-- The quote rule: Go pattern (?m)^>\s+(.*)$ with replacement bq. $1.  The
Bool argument records whether the scanner stands at a line start. -/
def quoteScanF : Nat → Bool → List Char → List Char
  | 0, _, s => s
  | Nat.succ fuel, atStart, s =>
    match s with
    | [] => []
    | c :: rest =>
      if atStart && c == '>' && (match rest.head? with
          | some r => isSpaceRE r
          | none => false) then
        let tl := rest.dropWhile isSpaceRE
        let content := tl.takeWhile (fun d => d != '\n')
        let post := tl.dropWhile (fun d => d != '\n')
        "bq. ".data ++ content ++ quoteScanF fuel false post
      else
        c :: quoteScanF fuel (c == '\n') rest

def quoteScan (s : List Char) : List Char := quoteScanF (s.length + 1) true s

/-- The fenced-code rule with a language tag.  The Go replacement is the raw
string literal backslash-n, not a newline, so the output separators are the
two-character sequence \x5cn. -/
def codeScanF : Nat → Bool → List Char → List Char
  | 0, _, s => s
  | Nat.succ fuel, atStart, s =>
    match s with
    | [] => []
    | c :: rest =>
      if atStart && "```".data.isPrefixOf (c :: rest) then
        let after := (c :: rest).drop 3
        let w := after.takeWhile isWordChar
        let tl := after.dropWhile isWordChar
        if w != [] && tl.head? == some '\n' then
          match splitAtPat "\n```".data tl.tail with
          | some (content, post) =>
            "\x7bcode:".data ++ w ++ "\x7d".data ++ "\\n".data ++ content ++
              "\\n".data ++ "\x7bcode\x7d".data ++ codeScanF fuel false post
          | none => c :: codeScanF fuel (c == '\n') rest
        else c :: codeScanF fuel (c == '\n') rest
      else c :: codeScanF fuel (c == '\n') rest

def codeScan (s : List Char) : List Char := codeScanF (s.length + 1) true s

/-- The fenced-code rule without a language tag.  The Go replacement refers to
group 2, which the pattern does not have, so the enclosed content is replaced
by the empty string; the separators are again the literal two-character
sequence \x5cn. -/
def noformatScanF : Nat → Bool → List Char → List Char
  | 0, _, s => s
  | Nat.succ fuel, atStart, s =>
    match s with
    | [] => []
    | c :: rest =>
      if atStart && "```\n".data.isPrefixOf (c :: rest) then
        match splitAtPat "\n```".data ((c :: rest).drop 4) with
        | some (_content, post) =>
          "\x7bnoformat\x7d".data ++ "\\n".data ++ "\\n".data ++
            "\x7bnoformat\x7d".data ++ noformatScanF fuel false post
        | none => c :: noformatScanF fuel (c == '\n') rest
      else c :: noformatScanF fuel (c == '\n') rest

def noformatScan (s : List Char) : List Char := noformatScanF (s.length + 1) true s

/-- A heading rule (?m)^pat(.*)$ rewriting a line `pat ++ rest` to
`out ++ rest`.  Applied per line through `applyLines`. -/
def headingRule (pat out line : List Char) : List Char :=
  if pat.isPrefixOf line then out ++ line.drop pat.length else line

def splitNl : List Char → List (List Char)
  | [] => [[]]
  | c :: rest =>
    if c = '\n' then [] :: splitNl rest
    else
      match splitNl rest with
      | [] => [[c]]
      | l :: ls => (c :: l) :: ls

def joinNl : List (List Char) → List Char
  | [] => []
  | [l] => l
  | l :: ls => l ++ '\n' :: joinNl ls

/-- Apply a line-anchored rule to every newline-separated line, as the
multiline flag makes the heading patterns do. -/
def applyLines (f : List Char → List Char) (s : List Char) : List Char :=
  joinNl ((splitNl s).map f)

/-- The six heading substitutions, in source order: levels 6 and 5 map to
their own prefixes, level 4 maps to the level-3 prefix, then 3, 2, 1. -/
def headingsStage (body : List Char) : List Char :=
  let body := applyLines (headingRule "###### ".data "h6. ".data) body
  let body := applyLines (headingRule "##### ".data "h5. ".data) body
  let body := applyLines (headingRule "#### ".data "h3. ".data) body
  let body := applyLines (headingRule "### ".data "h3. ".data) body
  let body := applyLines (headingRule "## ".data "h2. ".data) body
  let body := applyLines (headingRule "# ".data "h1. ".data) body
  body

/-- The text-effect substitutions, in source order. -/
def effectsStage (body : List Char) : List Char :=
  let body := pairRepl "**".data "**".data "*".data "*".data body
  let body := pairRepl "__".data "__".data "*".data "*".data body
  let body := pairRepl "*".data "*".data "_".data "_".data body
  let body := pairRepl "_".data "_".data "_".data "_".data body
  let body := pairRepl "<cite>".data "<cite>".data "??".data "??".data body
  let body := delRepl body
  let body := pairRepl "<ins>".data "<ins>".data "+".data "+".data body
  let body := pairRepl "<sup>".data "<sup>".data "^".data "^".data body
  let body := pairRepl "<sub>".data "<sub>".data "~".data "~".data body
  let body := pairRepl "`".data "`".data "\x7b\x7b".data "\x7d\x7d".data body
  let body := quoteScan body
  body

/-- The link substitutions, in source order. -/
def linksStage (body : List Char) : List Char :=
  let body := imageRepl body
  let body := pairRepl "<".data ">".data "[".data "]".data body
  let body := altURLRepl body
  body

/-- The advanced-formatting substitutions, in source order. -/
def blocksStage (body : List Char) : List Char :=
  let body := codeScan body
  let body := noformatScan body
  body

/-- GitHubToJiraBody: the full ordered substitution pipeline of lib/issues.go,
lines 279-312. -/
def GitHubToJiraBody (body : String) : String :=
  String.mk (blocksStage (linksStage (effectsStage (headingsStage body.data))))

/-! ## Data model of the reconciliation engine -/

/-- The six custom-field roles of cfg.fieldKey. -/
inductive FieldKey where
  | GitHubID
  | GitHubNumber
  | GitHubLabels
  | GitHubStatus
  | GitHubReporter
  | LastISUpdate
  deriving DecidableEq

/-- The slice of cfg.Config the reconciliation core reads.  `getFieldKey`
models Config.GetFieldKey, `getProject` models Config.GetProject, and `now`
stands for the formatted time.Now value written into the last-sync field. -/
structure Config where
  getFieldKey : FieldKey → String
  getProject : String → String
  now : String

/-- The fields of a github.Issue the core reads (pointer getters flattened). -/
structure GHIssue where
  id : Int
  number : Int
  title : String
  body : String
  state : String
  userLogin : String
  labels : List String
  deriving DecidableEq

/-- A value stored in the open-ended Unknowns map of a JIRA issue. -/
inductive UnknownVal where
  | str : String → UnknownVal
  | int : Int → UnknownVal
  | other : UnknownVal
  deriving DecidableEq

/-- jira.IssueFields, restricted to what the core reads and writes. -/
structure JiraFields where
  project : String
  summary : String
  description : String
  typ : String
  unknowns : List (String × UnknownVal)
  deriving DecidableEq

structure JiraIssue where
  key : String
  id : String
  fields : JiraFields
  deriving DecidableEq

def unknownsLookup (u : List (String × UnknownVal)) (k : String) : Option UnknownVal :=
  (u.find? (fun p => p.1 == k)).map (fun p => p.2)

/-- Unknowns.String: `some` on a readable string field, `none` on a missing
field or one of another type (the Go call also returns the zero value "" in
that case). -/
def unknownsString (u : List (String × UnknownVal)) (k : String) : Option String :=
  match unknownsLookup u k with
  | some (UnknownVal.str s) => some s
  | _ => none

/-- Unknowns.Int: `some` on a readable integer field, `none` (Go: 0 and an
error) otherwise. -/
def unknownsInt (u : List (String × UnknownVal)) (k : String) : Option Int :=
  match unknownsLookup u k with
  | some (UnknownVal.int n) => some n
  | _ => none

/-- TranslatedIssue: a source issue paired with its translated body. -/
structure TranslatedIssue where
  issue : GHIssue
  translatedBody : String
  deriving DecidableEq

def NewTranslatedIssue (issue : GHIssue) : TranslatedIssue :=
  { issue := issue, translatedBody := GitHubToJiraBody issue.body }

def TranslatedIssue.getTranslatedBody (i : TranslatedIssue) : String :=
  i.translatedBody

/-! ## External collaborators

The tracker clients and the comment reconciler are external collaborators;
they are modelled as oracles.  Every call the core makes to them is recorded
in a trace. -/

structure GitHubClient where
  listIssues : Except String (List GHIssue)
  getRepo : String

structure JIRAClient where
  listIssues : List Int → Except String (List JiraIssue)
  createIssue : JiraIssue → Except String JiraIssue
  updateIssue : JiraIssue → Except String JiraIssue
  getIssue : String → Except String JiraIssue

/-- Modelled from the spec: comment reconciliation (CompareComments, in
lib/comments.go, which is not part of the given core sources) is an external
collaborator invoked after every create and every update/verify; only its
invocation and its error result matter to the core. -/
def CommentSync : Type := GHIssue → JiraIssue → Except String Unit

/-- One recorded call to an external collaborator. -/
inductive Call where
  | ghList : Call
  | jList : List Int → Call
  | jCreate : JiraIssue → Call
  | jUpdate : JiraIssue → Call
  | jGet : String → Call
  | comments : Int → String → Call
  deriving DecidableEq

/-- Destination-tracker calls (JIRA list, create, update, get). -/
def Call.isDestination : Call → Bool
  | Call.jList _ => true
  | Call.jCreate _ => true
  | Call.jUpdate _ => true
  | Call.jGet _ => true
  | _ => false

def Call.isComments : Call → Bool
  | Call.comments _ _ => true
  | _ => false

/-! ## DidIssueChange (lib/issues.go lines 73-109) -/

def DidIssueChange (config : Config) (ghIssue : TranslatedIssue) (jIssue : JiraIssue) : Bool :=
  let anyDifferent := false
  let anyDifferent := anyDifferent || (ghIssue.issue.title != jIssue.fields.summary)
  let anyDifferent := anyDifferent || (ghIssue.getTranslatedBody != jIssue.fields.description)
  let anyDifferent := anyDifferent ||
    (match unknownsString jIssue.fields.unknowns (config.getFieldKey FieldKey.GitHubStatus) with
     | none => true
     | some field => ghIssue.issue.state != field)
  let anyDifferent := anyDifferent ||
    (match unknownsString jIssue.fields.unknowns (config.getFieldKey FieldKey.GitHubReporter) with
     | none => true
     | some field => ghIssue.issue.userLogin != field)
  let labels := String.intercalate "," ghIssue.issue.labels
  let anyDifferent := anyDifferent ||
    (match unknownsString jIssue.fields.unknowns (config.getFieldKey FieldKey.GitHubLabels) with
     | none => labels != ""
     | some _ => false)
  anyDifferent

/-! ## UpdateIssue (lib/issues.go lines 114-170) -/

/-- The update payload built when a difference was detected (lines 122-146). -/
def mkUpdateFields (config : Config) (ghIssue : TranslatedIssue) (jIssue : JiraIssue) : JiraFields :=
  { project := ""
    summary := ghIssue.issue.title
    description := ghIssue.getTranslatedBody
    typ := jIssue.fields.typ
    unknowns := [
      (config.getFieldKey FieldKey.GitHubStatus, UnknownVal.str ghIssue.issue.state),
      (config.getFieldKey FieldKey.GitHubReporter, UnknownVal.str ghIssue.issue.userLogin),
      (config.getFieldKey FieldKey.GitHubLabels,
        UnknownVal.str (String.intercalate "," ghIssue.issue.labels)),
      (config.getFieldKey FieldKey.LastISUpdate, UnknownVal.str config.now)] }

def mkUpdatePayload (config : Config) (ghIssue : TranslatedIssue) (jIssue : JiraIssue) : JiraIssue :=
  { fields := mkUpdateFields config ghIssue jIssue, key := jIssue.key, id := jIssue.id }

/-- The tail shared by both branches of UpdateIssue (lines 159-169): re-fetch
the destination record by key, then hand off to comment reconciliation.  A
re-fetch failure returns the error without invoking the comment sync. -/
def updateFetchAndSync (ghIssue : TranslatedIssue) (jIssue : JiraIssue) (jClient : JIRAClient)
    (cs : CommentSync) (tr : List Call) : Except String Unit × List Call :=
  match jClient.getIssue jIssue.key with
  | Except.error e => (Except.error e, tr ++ [Call.jGet jIssue.key])
  | Except.ok issue =>
    match cs ghIssue.issue issue with
    | Except.error e =>
      (Except.error e, tr ++ [Call.jGet jIssue.key, Call.comments ghIssue.issue.id issue.key])
    | Except.ok _ =>
      (Except.ok (), tr ++ [Call.jGet jIssue.key, Call.comments ghIssue.issue.id issue.key])

def UpdateIssue (config : Config) (ghIssue : TranslatedIssue) (jIssue : JiraIssue)
    (_ghClient : GitHubClient) (jClient : JIRAClient) (cs : CommentSync) :
    Except String Unit × List Call :=
  if DidIssueChange config ghIssue jIssue then
    let payload := mkUpdatePayload config ghIssue jIssue
    match jClient.updateIssue payload with
    | Except.error e => (Except.error e, [Call.jUpdate payload])
    | Except.ok _ => updateFetchAndSync ghIssue jIssue jClient cs [Call.jUpdate payload]
  else
    updateFetchAndSync ghIssue jIssue jClient cs []

/-! ## CreateIssue (lib/issues.go lines 174-225) -/

def mkCreateFields (config : Config) (issue : TranslatedIssue) (ghClient : GitHubClient) :
    JiraFields :=
  { project := config.getProject ghClient.getRepo
    summary := issue.issue.title
    description := issue.getTranslatedBody
    typ := "Task"
    unknowns := [
      (config.getFieldKey FieldKey.GitHubID, UnknownVal.int issue.issue.id),
      (config.getFieldKey FieldKey.GitHubNumber, UnknownVal.int issue.issue.number),
      (config.getFieldKey FieldKey.GitHubStatus, UnknownVal.str issue.issue.state),
      (config.getFieldKey FieldKey.GitHubReporter, UnknownVal.str issue.issue.userLogin),
      (config.getFieldKey FieldKey.GitHubLabels,
        UnknownVal.str (String.intercalate "," issue.issue.labels)),
      (config.getFieldKey FieldKey.LastISUpdate, UnknownVal.str config.now)] }

def CreateIssue (config : Config) (issue : TranslatedIssue) (ghClient : GitHubClient)
    (jClient : JIRAClient) (cs : CommentSync) : Except String Unit × List Call :=
  let payload : JiraIssue := { fields := mkCreateFields config issue ghClient, key := "", id := "" }
  match jClient.createIssue payload with
  | Except.error e => (Except.error e, [Call.jCreate payload])
  | Except.ok created =>
    match jClient.getIssue created.key with
    | Except.error e => (Except.error e, [Call.jCreate payload, Call.jGet created.key])
    | Except.ok fetched =>
      match cs issue.issue fetched with
      | Except.error e =>
        (Except.error e,
          [Call.jCreate payload, Call.jGet created.key, Call.comments issue.issue.id fetched.key])
      | Except.ok _ =>
        (Except.ok (),
          [Call.jCreate payload, Call.jGet created.key, Call.comments issue.issue.id fetched.key])

/-! ## CompareIssues (lib/issues.go lines 21-69) -/

/-- The link test of the inner loop (lines 52-53): the GitHub-ID custom field
read with the error ignored, hence 0 when absent or unreadable, compared with
the source issue id. -/
def linkMatches (config : Config) (ghIssue : GHIssue) (jIssue : JiraIssue) : Bool :=
  (unknownsInt jIssue.fields.unknowns (config.getFieldKey FieldKey.GitHubID)).getD 0 == ghIssue.id

/-- The body of the per-source-issue loop (lines 48-66): first linked
destination issue wins and is updated, otherwise a create is dispatched. -/
def reconcileOne (config : Config) (jiraIssues : List JiraIssue) (ghIssue : GHIssue)
    (ghClient : GitHubClient) (jClient : JIRAClient) (cs : CommentSync) :
    Except String Unit × List Call :=
  let ghTranslatedIssue := NewTranslatedIssue ghIssue
  match jiraIssues.find? (fun jIssue => linkMatches config ghIssue jIssue) with
  | some jIssue => UpdateIssue config ghTranslatedIssue jIssue ghClient jClient cs
  | none => CreateIssue config ghTranslatedIssue ghClient jClient cs

/-- CompareIssues.  Per-issue errors are logged and dropped (lines 55-57 and
62-64): only their traces are accumulated, and the pass returns success. -/
def CompareIssues (config : Config) (ghClient : GitHubClient) (jClient : JIRAClient)
    (cs : CommentSync) : Except String Unit × List Call :=
  match ghClient.listIssues with
  | Except.error e => (Except.error e, [Call.ghList])
  | Except.ok ghIssues =>
    if ghIssues.length = 0 then (Except.ok (), [Call.ghList])
    else
      let ids := ghIssues.map (fun v => v.id)
      match jClient.listIssues ids with
      | Except.error e => (Except.error e, [Call.ghList, Call.jList ids])
      | Except.ok jiraIssues =>
        (Except.ok (),
          ghIssues.foldl
            (fun tr ghIssue => tr ++ (reconcileOne config jiraIssues ghIssue ghClient jClient cs).2)
            [Call.ghList, Call.jList ids])

/-! ## Concrete instances used to exercise the model -/

/-- Characters that none of the translation rules react to. -/
def plainChar (c : Char) : Bool := c.isAlphanum || c == ' ' || c == '.'

def fkName : FieldKey → String
  | FieldKey.GitHubID => "customfield_001"
  | FieldKey.GitHubNumber => "customfield_002"
  | FieldKey.GitHubLabels => "customfield_003"
  | FieldKey.GitHubStatus => "customfield_004"
  | FieldKey.GitHubReporter => "customfield_005"
  | FieldKey.LastISUpdate => "customfield_006"

def cfg0 : Config :=
  { getFieldKey := fkName, getProject := fun _ => "PROJ", now := "2026-10-11T00:00:00.0+0000" }

def commentsOK : CommentSync := fun _ _ => Except.ok ()

/-- A source issue linked to jIssueA whose title has drifted. -/
def ghIssueA : GHIssue :=
  { id := 1, number := 10, title := "T", body := "b", state := "open",
    userLogin := "alice", labels := ["x"] }

def jIssueA : JiraIssue :=
  { key := "PROJ-1", id := "100",
    fields := { project := "PROJ", summary := "OLD", description := "b", typ := "Task",
                unknowns := [("customfield_001", UnknownVal.int 1),
                             ("customfield_004", UnknownVal.str "open"),
                             ("customfield_005", UnknownVal.str "alice"),
                             ("customfield_003", UnknownVal.str "x")] } }

def ghClientA : GitHubClient := { listIssues := Except.ok [ghIssueA], getRepo := "o/r" }

/-- A destination client whose update succeeds and whose re-fetch fails. -/
def jClientA : JIRAClient :=
  { listIssues := fun _ => Except.ok [jIssueA]
    createIssue := fun i => Except.ok i
    updateIssue := fun i => Except.ok i
    getIssue := fun _ => Except.error "refetch failed" }

/-- Two unlinked source issues; the destination client rejects the create for
the first and accepts the create for the second. -/
def ghA : GHIssue :=
  { id := 1, number := 11, title := "A", body := "a", state := "open",
    userLogin := "u", labels := [] }

def ghB : GHIssue :=
  { id := 2, number := 22, title := "B", body := "b", state := "open",
    userLogin := "u", labels := [] }

def ghClientB : GitHubClient := { listIssues := Except.ok [ghA, ghB], getRepo := "o/r" }

def jClientB : JIRAClient :=
  { listIssues := fun _ => Except.ok []
    createIssue := fun i =>
      if i.fields.summary == "A" then Except.error "create failed"
      else Except.ok { i with key := "PROJ-2" }
    updateIssue := fun i => Except.ok i
    getIssue := fun k =>
      Except.ok { key := k, id := "x",
                  fields := { project := "PROJ", summary := "B", description := "b",
                              typ := "Task", unknowns := [] } } }

/-- An empty source listing and a destination client that fails every call. -/
def ghClientE : GitHubClient := { listIssues := Except.ok [], getRepo := "o/r" }

def jClientE : JIRAClient :=
  { listIssues := fun _ => Except.error "unused"
    createIssue := fun _ => Except.error "unused"
    updateIssue := fun _ => Except.error "unused"
    getIssue := fun _ => Except.error "unused" }

/-- A fully matching linked pair, for the no-difference path of UpdateIssue. -/
def ghIssue9 : GHIssue :=
  { id := 9, number := 90, title := "Same", body := "hello", state := "open",
    userLogin := "bob", labels := ["a", "b"] }

def jIssue9 : JiraIssue :=
  { key := "PROJ-9", id := "900",
    fields := { project := "PROJ", summary := "Same", description := "hello", typ := "Task",
                unknowns := [("customfield_001", UnknownVal.int 9),
                             ("customfield_004", UnknownVal.str "open"),
                             ("customfield_005", UnknownVal.str "bob"),
                             ("customfield_003", UnknownVal.str "a,b")] } }

def ghClient9 : GitHubClient := { listIssues := Except.ok [ghIssue9], getRepo := "o/r" }

def jClient9 : JIRAClient :=
  { listIssues := fun _ => Except.ok [jIssue9]
    createIssue := fun i => Except.ok i
    updateIssue := fun i => Except.ok i
    getIssue := fun _ => Except.ok jIssue9 }

/-- A destination issue whose GitHub-ID custom field is not readable as an
integer, and a source issue with numeric id 0. -/
def ghIssue10 : GHIssue :=
  { id := 0, number := 7, title := "Z", body := "z", state := "open",
    userLogin := "eve", labels := [] }

def jIssue10 : JiraIssue :=
  { key := "PROJ-10", id := "1000",
    fields := { project := "PROJ", summary := "Z", description := "z", typ := "Task",
                unknowns := [("customfield_001", UnknownVal.str "not-an-int")] } }

/-! ## Theorems about DidIssueChange and CompareIssues -/

/-- C1: DidIssueChange is true exactly when the summary differs from the
title, or the description differs from the translated body, or the mapped
state field is unreadable or differs from the source state, or the mapped
reporter field is unreadable or differs from the source author login, or the
mapped labels field is unreadable and differs from the comma-joined
insertion-order source label names (an unreadable field reads as "", so this
is: the joined labels are nonempty).  In particular a readable labels field
with differing content contributes no difference. -/
theorem didIssueChange_iff (config : Config) (gh : TranslatedIssue) (j : JiraIssue) :
    DidIssueChange config gh j = true ↔
      gh.issue.title ≠ j.fields.summary ∨
      gh.getTranslatedBody ≠ j.fields.description ∨
      unknownsString j.fields.unknowns (config.getFieldKey FieldKey.GitHubStatus) ≠
        some gh.issue.state ∨
      unknownsString j.fields.unknowns (config.getFieldKey FieldKey.GitHubReporter) ≠
        some gh.issue.userLogin ∨
      (unknownsString j.fields.unknowns (config.getFieldKey FieldKey.GitHubLabels) = none ∧
        String.intercalate "," gh.issue.labels ≠ "") := by
  unfold DidIssueChange
  cases hs : unknownsString j.fields.unknowns (config.getFieldKey FieldKey.GitHubStatus) <;>
    cases hr : unknownsString j.fields.unknowns (config.getFieldKey FieldKey.GitHubReporter) <;>
      cases hl : unknownsString j.fields.unknowns (config.getFieldKey FieldKey.GitHubLabels) <;>
        simp [bne_iff_ne] <;> tauto

/-- C4: with an empty fetched source issue list, CompareIssues returns
success at once, its trace is just the source listing call, and in particular
it contains no destination-tracker call. -/
theorem compareIssues_empty (config : Config) (ghClient : GitHubClient) (jClient : JIRAClient)
    (cs : CommentSync) (h : ghClient.listIssues = Except.ok []) :
    CompareIssues config ghClient jClient cs = (Except.ok (), [Call.ghList]) ∧
    ((CompareIssues config ghClient jClient cs).2.filter Call.isDestination) = [] := by
  have h1 : CompareIssues config ghClient jClient cs = (Except.ok (), [Call.ghList]) := by
    simp [CompareIssues, h]
  exact ⟨h1, by rw [h1]; rfl⟩

theorem compareIssues_empty_witness :
    ghClientE.listIssues = Except.ok [] ∧
    (CompareIssues cfg0 ghClientE jClientE commentsOK = (Except.ok (), [Call.ghList]) ∧
      ((CompareIssues cfg0 ghClientE jClientE commentsOK).2.filter Call.isDestination) = []) :=
  ⟨rfl, compareIssues_empty cfg0 ghClientE jClientE commentsOK rfl⟩

/-- C10: when the destination issue's GitHub-ID custom field is absent or not
readable as an integer, the link test of CompareIssues treats its value as 0:
the issue matches a source issue exactly when that source issue's numeric id
is 0, so it never matches a nonzero id and is accepted for id 0. -/
theorem linkMatches_unreadable (config : Config) (gh : GHIssue) (j : JiraIssue)
    (h : unknownsInt j.fields.unknowns (config.getFieldKey FieldKey.GitHubID) = none) :
    (linkMatches config gh j = true ↔ gh.id = 0) := by
  unfold linkMatches
  rw [h]
  simp only [Option.getD_none, beq_iff_eq]
  exact eq_comm

theorem linkMatches_unreadable_witness :
    unknownsInt jIssue10.fields.unknowns (cfg0.getFieldKey FieldKey.GitHubID) = none ∧
    (linkMatches cfg0 ghIssue10 jIssue10 = true ↔ ghIssue10.id = 0) :=
  ⟨rfl, linkMatches_unreadable cfg0 ghIssue10 jIssue10 rfl⟩

/-! ## Theorems about the markup translator -/

/-- C6 (failing input): the strong rule first rewrites **bold** to *bold*,
and the later emphasis rule then re-matches that output, so the translation
of "**bold**" is the destination emphasis form "_bold_" rather than the
destination strong form "*bold*" the claim states. -/
theorem gh2j_strong_rematched_by_emphasis : GitHubToJiraBody "**bold**" = "_bold_" := by rfl

/-- C7 (failing input): the inline-monospace rule runs before the fenced-code
rules and consumes the fence backticks pairwise, so a fenced block with a
language tag never reaches the code-block rule; the whole input is rewritten
into monospace braces instead of a code block. -/
theorem gh2j_code_fence_destroyed :
    GitHubToJiraBody "```go\nfoo\n```" =
      "\x7b\x7b\x7d\x7d\x7b\x7bgo\nfoo\n\x7d\x7d\x7b\x7b\x7d\x7d" := by rfl

/-- C8: the two link forms translate exactly as the claim states. -/
theorem gh2j_links :
    GitHubToJiraBody "[text](http://x)" = "[text|http://x]" ∧
    GitHubToJiraBody "<http://x>" = "[http://x]" := ⟨by rfl, by rfl⟩

/-! ## Theorems about the reconciliation loop -/

theorem foldl_append_trace (f : GHIssue → List Call) (xs : List GHIssue) (acc : List Call) :
    xs.foldl (fun tr g => tr ++ f g) acc = acc ++ xs.flatMap f := by
  induction xs generalizing acc with
  | nil => simp
  | cons x xs ih => simp [ih, List.append_assoc]

/-- The successful-listing runs of CompareIssues: the pass returns success
and its trace is the two listing calls followed by the concatenation of the
per-issue reconciliation traces, each of which depends only on its own source
issue.  Shared by the claims about batch behaviour. -/
theorem compareIssues_run (config : Config) (ghClient : GitHubClient) (jClient : JIRAClient)
    (cs : CommentSync) (ghIssues : List GHIssue) (jiraIssues : List JiraIssue)
    (hg : ghClient.listIssues = Except.ok ghIssues)
    (hne : ghIssues ≠ [])
    (hj : jClient.listIssues (ghIssues.map (fun v => v.id)) = Except.ok jiraIssues) :
    CompareIssues config ghClient jClient cs =
      (Except.ok (), Call.ghList :: Call.jList (ghIssues.map (fun v => v.id)) ::
        ghIssues.flatMap (fun g => (reconcileOne config jiraIssues g ghClient jClient cs).2)) := by
  unfold CompareIssues
  rw [hg]
  simp only [hj]
  rw [if_neg (by simpa [List.length_eq_zero] using hne)]
  rw [foldl_append_trace]
  rfl

/-- C3: a create or update submission failure for an earlier source issue
does not abort the batch.  Whenever both listings succeed, CompareIssues
returns success and reconciles every fetched source issue in order: the trace
is exactly the concatenation of the independent per-issue reconciliation
traces, so the reconciliation of a later issue is unaffected by any earlier
per-issue failure. -/
theorem compareIssues_no_abort (config : Config) (ghClient : GitHubClient) (jClient : JIRAClient)
    (cs : CommentSync) (ghIssues : List GHIssue) (jiraIssues : List JiraIssue)
    (hg : ghClient.listIssues = Except.ok ghIssues)
    (hne : ghIssues ≠ [])
    (hj : jClient.listIssues (ghIssues.map (fun v => v.id)) = Except.ok jiraIssues) :
    CompareIssues config ghClient jClient cs =
      (Except.ok (), Call.ghList :: Call.jList (ghIssues.map (fun v => v.id)) ::
        ghIssues.flatMap (fun g => (reconcileOne config jiraIssues g ghClient jClient cs).2)) :=
  compareIssues_run config ghClient jClient cs ghIssues jiraIssues hg hne hj

theorem compareIssues_no_abort_witness :
    ghClientB.listIssues = Except.ok [ghA, ghB] ∧ ([ghA, ghB] : List GHIssue) ≠ [] ∧
    jClientB.listIssues ([ghA, ghB].map (fun v => v.id)) = Except.ok [] ∧
    (jClientB.createIssue
        { fields := mkCreateFields cfg0 (NewTranslatedIssue ghA) ghClientB,
          key := "", id := "" } = Except.error "create failed") ∧
    CompareIssues cfg0 ghClientB jClientB commentsOK =
      (Except.ok (), Call.ghList :: Call.jList ([ghA, ghB].map (fun v => v.id)) ::
        ([ghA, ghB].flatMap (fun g => (reconcileOne cfg0 [] g ghClientB jClientB commentsOK).2))) :=
  ⟨rfl, List.cons_ne_nil _ _, rfl, rfl,
    compareIssues_no_abort cfg0 ghClientB jClientB commentsOK [ghA, ghB] []
      rfl (List.cons_ne_nil _ _) rfl⟩

/-- C2 (counterexample): a concrete run in which the update write succeeds
and the subsequent re-fetch fails; UpdateIssue stops before any comment sync,
yet CompareIssues still returns success, contradicting the claim that the
error is propagated as a pass-level failure. -/
theorem compareIssues_swallows_refetch_error :
    jClientA.updateIssue (mkUpdatePayload cfg0 (NewTranslatedIssue ghIssueA) jIssueA) =
      Except.ok (mkUpdatePayload cfg0 (NewTranslatedIssue ghIssueA) jIssueA) ∧
    jClientA.getIssue jIssueA.key = Except.error "refetch failed" ∧
    DidIssueChange cfg0 (NewTranslatedIssue ghIssueA) jIssueA = true ∧
    CompareIssues cfg0 ghClientA jClientA commentsOK =
      (Except.ok (), [Call.ghList, Call.jList [1],
        Call.jUpdate (mkUpdatePayload cfg0 (NewTranslatedIssue ghIssueA) jIssueA),
        Call.jGet "PROJ-1"]) :=
  ⟨rfl, rfl, rfl, rfl⟩

/-- C2 (amended): when the create-or-update write succeeds and the subsequent
re-fetch of the destination record fails, reconciliation of that issue stops
with the re-fetch error before any comment sync is attempted, and UpdateIssue
returns that error; but the error is only logged by the pass, which still
returns success rather than a pass-level failure. -/
theorem updateIssue_refetch_error (config : Config) (gh : TranslatedIssue) (jIssue : JiraIssue)
    (ghClient : GitHubClient) (jClient : JIRAClient) (cs : CommentSync)
    (ghIssues : List GHIssue) (jiraIssues : List JiraIssue) (e : String)
    (upd created : JiraIssue)
    (hget : ∀ k, jClient.getIssue k = Except.error e)
    (hupd : jClient.updateIssue (mkUpdatePayload config gh jIssue) = Except.ok upd)
    (hcre : jClient.createIssue
      { fields := mkCreateFields config gh ghClient, key := "", id := "" } = Except.ok created)
    (hg : ghClient.listIssues = Except.ok ghIssues)
    (hne : ghIssues ≠ [])
    (hj : jClient.listIssues (ghIssues.map (fun v => v.id)) = Except.ok jiraIssues) :
    (UpdateIssue config gh jIssue ghClient jClient cs).1 = Except.error e ∧
    (∀ c ∈ (UpdateIssue config gh jIssue ghClient jClient cs).2, c.isComments = false) ∧
    (CreateIssue config gh ghClient jClient cs).1 = Except.error e ∧
    (∀ c ∈ (CreateIssue config gh ghClient jClient cs).2, c.isComments = false) ∧
    (CompareIssues config ghClient jClient cs).1 = Except.ok () := by
  have hu : UpdateIssue config gh jIssue ghClient jClient cs = (Except.error e,
      if DidIssueChange config gh jIssue then
        [Call.jUpdate (mkUpdatePayload config gh jIssue), Call.jGet jIssue.key]
      else [Call.jGet jIssue.key]) := by
    unfold UpdateIssue
    by_cases hd : DidIssueChange config gh jIssue
    · rw [if_pos hd, if_pos hd]
      simp only [hupd, updateFetchAndSync, hget jIssue.key]
      rfl
    · rw [if_neg hd, if_neg hd]
      simp only [updateFetchAndSync, hget jIssue.key, List.nil_append]
  have hcr : CreateIssue config gh ghClient jClient cs = (Except.error e,
      [Call.jCreate { fields := mkCreateFields config gh ghClient, key := "", id := "" },
        Call.jGet created.key]) := by
    unfold CreateIssue
    simp only [hcre, hget created.key]
  refine ⟨by rw [hu], ?_, by rw [hcr], ?_, ?_⟩
  · rw [hu]
    by_cases hd : DidIssueChange config gh jIssue
    · rw [if_pos hd]
      intro c hc
      simp only [List.mem_cons, List.not_mem_nil, or_false] at hc
      rcases hc with rfl | rfl <;> rfl
    · rw [if_neg hd]
      intro c hc
      simp only [List.mem_cons, List.not_mem_nil, or_false] at hc
      rcases hc with rfl
      rfl
  · rw [hcr]
    intro c hc
    simp only [List.mem_cons, List.not_mem_nil, or_false] at hc
    rcases hc with rfl | rfl <;> rfl
  · rw [compareIssues_run config ghClient jClient cs ghIssues jiraIssues hg hne hj]

theorem updateIssue_refetch_error_witness :
    (∀ k, jClientA.getIssue k = Except.error "refetch failed") ∧
    jClientA.updateIssue (mkUpdatePayload cfg0 (NewTranslatedIssue ghIssueA) jIssueA) =
      Except.ok (mkUpdatePayload cfg0 (NewTranslatedIssue ghIssueA) jIssueA) ∧
    ghClientA.listIssues = Except.ok [ghIssueA] ∧ ([ghIssueA] : List GHIssue) ≠ [] ∧
    jClientA.listIssues ([ghIssueA].map (fun v => v.id)) = Except.ok [jIssueA] ∧
    ((UpdateIssue cfg0 (NewTranslatedIssue ghIssueA) jIssueA ghClientA jClientA commentsOK).1 =
        Except.error "refetch failed" ∧
      (∀ c ∈ (UpdateIssue cfg0 (NewTranslatedIssue ghIssueA) jIssueA ghClientA jClientA
          commentsOK).2, c.isComments = false) ∧
      (CreateIssue cfg0 (NewTranslatedIssue ghIssueA) ghClientA jClientA commentsOK).1 =
        Except.error "refetch failed" ∧
      (∀ c ∈ (CreateIssue cfg0 (NewTranslatedIssue ghIssueA) ghClientA jClientA
          commentsOK).2, c.isComments = false) ∧
      (CompareIssues cfg0 ghClientA jClientA commentsOK).1 = Except.ok ()) :=
  ⟨fun _ => rfl, rfl, rfl, List.cons_ne_nil _ _, rfl,
    updateIssue_refetch_error cfg0 (NewTranslatedIssue ghIssueA) jIssueA ghClientA jClientA
      commentsOK [ghIssueA] [jIssueA] "refetch failed"
      (mkUpdatePayload cfg0 (NewTranslatedIssue ghIssueA) jIssueA)
      { fields := mkCreateFields cfg0 (NewTranslatedIssue ghIssueA) ghClientA,
        key := "", id := "" }
      (fun _ => rfl) rfl rfl rfl (List.cons_ne_nil _ _) rfl⟩

/-- C9: when no tracked field differs, UpdateIssue issues no update call, but
still re-fetches the destination record by key and still hands off to comment
reconciliation: its call trace is exactly the re-fetch followed by the
comment-sync hand-off. -/
theorem updateIssue_unchanged (config : Config) (gh : TranslatedIssue) (jIssue : JiraIssue)
    (ghClient : GitHubClient) (jClient : JIRAClient) (cs : CommentSync) (fetched : JiraIssue)
    (hchg : DidIssueChange config gh jIssue = false)
    (hget : jClient.getIssue jIssue.key = Except.ok fetched) :
    (UpdateIssue config gh jIssue ghClient jClient cs).2 =
      [Call.jGet jIssue.key, Call.comments gh.issue.id fetched.key] := by
  unfold UpdateIssue
  rw [if_neg (by simp [hchg])]
  simp only [updateFetchAndSync, hget]
  cases cs gh.issue fetched <;> rfl

theorem updateIssue_unchanged_witness :
    DidIssueChange cfg0 (NewTranslatedIssue ghIssue9) jIssue9 = false ∧
    jClient9.getIssue jIssue9.key = Except.ok jIssue9 ∧
    (UpdateIssue cfg0 (NewTranslatedIssue ghIssue9) jIssue9 ghClient9 jClient9 commentsOK).2 =
      [Call.jGet "PROJ-9", Call.comments 9 "PROJ-9"] :=
  ⟨rfl, rfl,
    updateIssue_unchanged cfg0 (NewTranslatedIssue ghIssue9) jIssue9 ghClient9 jClient9
      commentsOK jIssue9 rfl rfl⟩

/-! ## Identity lemmas: rules do not fire on text free of their trigger
characters -/

theorem isPrefixOf_cons_ne (a b : Char) (as bs : List Char) (h : (a == b) = false) :
    (a :: as).isPrefixOf (b :: bs) = false := by
  simp [List.isPrefixOf, h]

theorem isPrefixOf_cons_cons (a : Char) (as bs : List Char) :
    (a :: as).isPrefixOf (a :: bs) = as.isPrefixOf bs := by
  simp [List.isPrefixOf]

theorem isPrefixOf_self_append (pat rest : List Char) : pat.isPrefixOf (pat ++ rest) = true := by
  induction pat with
  | nil => simp [List.isPrefixOf]
  | cons c cs ih => simp [List.isPrefixOf, ih]

theorem isPrefixOf_false_of_head (pat : List Char) (d : Char) (hd : pat.head? = some d)
    (c : Char) (hne : (d == c) = false) (bs : List Char) :
    pat.isPrefixOf (c :: bs) = false := by
  cases pat with
  | nil => cases hd
  | cons a as =>
    injection hd with ha
    subst ha
    exact isPrefixOf_cons_ne a c as bs hne

theorem splitAtPat_none (pat s : List Char) (d : Char) (hd : pat.head? = some d)
    (h : d ∉ s) : splitAtPat pat s = none := by
  induction s with
  | nil => cases pat <;> rfl
  | cons c rest ih =>
    have hdc : (d == c) = false :=
      beq_eq_false_iff_ne.mpr (fun he => h (he ▸ List.mem_cons_self c rest))
    rw [splitAtPat]
    rw [if_neg (by simp [isPrefixOf_false_of_head pat d hd c hdc rest])]
    rw [ih (fun hm => h (List.mem_cons_of_mem c hm))]

theorem pairReplF_id (dl dr l r s : List Char) (n : Nat) (h : splitAtPat dl s = none) :
    pairReplF dl dr l r n s = s := by
  cases n with
  | zero => rfl
  | succ m => simp [pairReplF, h]

theorem pairRepl_id (dl dr l r s : List Char) (d : Char) (hd : dl.head? = some d)
    (h : d ∉ s) : pairRepl dl dr l r s = s :=
  pairReplF_id dl dr l r s _ (splitAtPat_none dl s d hd h)

theorem delReplF_id (s : List Char) (n : Nat) (h : splitAtPat "~~".data s = none) :
    delReplF n s = s := by
  cases n with
  | zero => rfl
  | succ m => simp [delReplF, h]

theorem delRepl_id (s : List Char) (h : '~' ∉ s) : delRepl s = s :=
  delReplF_id s _ (splitAtPat_none "~~".data s '~' rfl h)

theorem imageReplF_id (s : List Char) (n : Nat) (h : splitAtPat "![".data s = none) :
    imageReplF n s = s := by
  cases n with
  | zero => rfl
  | succ m => simp [imageReplF, h]

theorem imageRepl_id (s : List Char) (h : '!' ∉ s) : imageRepl s = s :=
  imageReplF_id s _ (splitAtPat_none "![".data s '!' rfl h)

theorem altURLReplF_id (s : List Char) (n : Nat) (h : splitAtPat "[".data s = none) :
    altURLReplF n s = s := by
  cases n with
  | zero => rfl
  | succ m => simp [altURLReplF, h]

theorem altURLRepl_id (s : List Char) (h : '[' ∉ s) : altURLRepl s = s :=
  altURLReplF_id s _ (splitAtPat_none "[".data s '[' rfl h)

theorem quoteScanF_id :
    ∀ (s : List Char), '>' ∉ s → ∀ (n : Nat) (b : Bool), s.length < n →
      quoteScanF n b s = s := by
  intro s
  induction s with
  | nil =>
    intro _ n _ hn
    cases n with
    | zero => exact absurd hn (Nat.not_lt_zero _)
    | succ m => rfl
  | cons c rest ih =>
    intro h n b hn
    cases n with
    | zero => exact absurd hn (Nat.not_lt_zero _)
    | succ m =>
      have hc : (c == '>') = false :=
        beq_eq_false_iff_ne.mpr (fun he => h (he ▸ List.mem_cons_self c rest))
      have hrest : '>' ∉ rest := fun hm => h (List.mem_cons_of_mem c hm)
      have hlen : rest.length < m := by simpa using Nat.lt_of_succ_lt_succ hn
      simp [quoteScanF, hc, ih hrest m (c == '\n') hlen]

theorem quoteScan_id (s : List Char) (h : '>' ∉ s) : quoteScan s = s :=
  quoteScanF_id s h _ true (Nat.lt_succ_self _)

theorem codeScanF_id :
    ∀ (s : List Char), Char.ofNat 96 ∉ s → ∀ (n : Nat) (b : Bool), s.length < n →
      codeScanF n b s = s := by
  intro s
  induction s with
  | nil =>
    intro _ n _ hn
    cases n with
    | zero => exact absurd hn (Nat.not_lt_zero _)
    | succ m => rfl
  | cons c rest ih =>
    intro h n b hn
    cases n with
    | zero => exact absurd hn (Nat.not_lt_zero _)
    | succ m =>
      have hc : ("```".data.isPrefixOf (c :: rest)) = false :=
        isPrefixOf_false_of_head "```".data (Char.ofNat 96) rfl c
          (beq_eq_false_iff_ne.mpr (fun he => h (he ▸ List.mem_cons_self c rest))) rest
      have hrest : Char.ofNat 96 ∉ rest := fun hm => h (List.mem_cons_of_mem c hm)
      have hlen : rest.length < m := by simpa using Nat.lt_of_succ_lt_succ hn
      simp [codeScanF, hc, ih hrest m (c == '\n') hlen]

theorem codeScan_id (s : List Char) (h : Char.ofNat 96 ∉ s) : codeScan s = s :=
  codeScanF_id s h _ true (Nat.lt_succ_self _)

theorem noformatScanF_id :
    ∀ (s : List Char), Char.ofNat 96 ∉ s → ∀ (n : Nat) (b : Bool), s.length < n →
      noformatScanF n b s = s := by
  intro s
  induction s with
  | nil =>
    intro _ n _ hn
    cases n with
    | zero => exact absurd hn (Nat.not_lt_zero _)
    | succ m => rfl
  | cons c rest ih =>
    intro h n b hn
    cases n with
    | zero => exact absurd hn (Nat.not_lt_zero _)
    | succ m =>
      have hc : ("```\n".data.isPrefixOf (c :: rest)) = false :=
        isPrefixOf_false_of_head "```\n".data (Char.ofNat 96) rfl c
          (beq_eq_false_iff_ne.mpr (fun he => h (he ▸ List.mem_cons_self c rest))) rest
      have hrest : Char.ofNat 96 ∉ rest := fun hm => h (List.mem_cons_of_mem c hm)
      have hlen : rest.length < m := by simpa using Nat.lt_of_succ_lt_succ hn
      simp [noformatScanF, hc, ih hrest m (c == '\n') hlen]

theorem noformatScan_id (s : List Char) (h : Char.ofNat 96 ∉ s) : noformatScan s = s :=
  noformatScanF_id s h _ true (Nat.lt_succ_self _)

theorem plain_not_mem (s : List Char) (hp : s.all plainChar = true) (d : Char)
    (hd : plainChar d = false) : d ∉ s := by
  intro hm
  have := List.all_eq_true.mp hp d hm
  rw [hd] at this
  cases this

theorem effectsStage_id (s : List Char) (hp : s.all plainChar = true) : effectsStage s = s := by
  have hstar : '*' ∉ s := plain_not_mem s hp '*' rfl
  have hund : '_' ∉ s := plain_not_mem s hp '_' rfl
  have hlt : '<' ∉ s := plain_not_mem s hp '<' rfl
  have htil : '~' ∉ s := plain_not_mem s hp '~' rfl
  have hbq : Char.ofNat 96 ∉ s := plain_not_mem s hp (Char.ofNat 96) rfl
  have hgt : '>' ∉ s := plain_not_mem s hp '>' rfl
  simp only [effectsStage]
  rw [pairRepl_id "**".data "**".data "*".data "*".data s '*' rfl hstar]
  rw [pairRepl_id "__".data "__".data "*".data "*".data s '_' rfl hund]
  rw [pairRepl_id "*".data "*".data "_".data "_".data s '*' rfl hstar]
  rw [pairRepl_id "_".data "_".data "_".data "_".data s '_' rfl hund]
  rw [pairRepl_id "<cite>".data "<cite>".data "??".data "??".data s '<' rfl hlt]
  rw [delRepl_id s htil]
  rw [pairRepl_id "<ins>".data "<ins>".data "+".data "+".data s '<' rfl hlt]
  rw [pairRepl_id "<sup>".data "<sup>".data "^".data "^".data s '<' rfl hlt]
  rw [pairRepl_id "<sub>".data "<sub>".data "~".data "~".data s '<' rfl hlt]
  rw [pairRepl_id "`".data "`".data "\x7b\x7b".data "\x7d\x7d".data s (Char.ofNat 96) rfl hbq]
  rw [quoteScan_id s hgt]

theorem linksStage_id (s : List Char) (hp : s.all plainChar = true) : linksStage s = s := by
  have hex : '!' ∉ s := plain_not_mem s hp '!' rfl
  have hlt : '<' ∉ s := plain_not_mem s hp '<' rfl
  have hlb : '[' ∉ s := plain_not_mem s hp '[' rfl
  simp only [linksStage]
  rw [imageRepl_id s hex]
  rw [pairRepl_id "<".data ">".data "[".data "]".data s '<' rfl hlt]
  rw [altURLRepl_id s hlb]

theorem blocksStage_id (s : List Char) (hp : s.all plainChar = true) : blocksStage s = s := by
  have hbq : Char.ofNat 96 ∉ s := plain_not_mem s hp (Char.ofNat 96) rfl
  simp only [blocksStage]
  rw [codeScan_id s hbq]
  rw [noformatScan_id s hbq]

/-! ## Computation of the heading stage on a single heading line -/

theorem splitNl_noNl (s : List Char) (h : '\n' ∉ s) : splitNl s = [s] := by
  induction s with
  | nil => rfl
  | cons c rest ih =>
    rw [splitNl]
    rw [if_neg (by rintro rfl; exact h (List.mem_cons_self _ _))]
    rw [ih (fun hm => h (List.mem_cons_of_mem c hm))]

theorem applyLines_noNl (f : List Char → List Char) (s : List Char) (h : '\n' ∉ s) :
    applyLines f s = f s := by
  unfold applyLines
  rw [splitNl_noNl s h]
  rfl

theorem headingRule_match (pat out rest : List Char) :
    headingRule pat out (pat ++ rest) = out ++ rest := by
  simp [headingRule, isPrefixOf_self_append, List.drop_left]

theorem headingRule_skip (pat out line : List Char) (h : pat.isPrefixOf line = false) :
    headingRule pat out line = line := by
  simp [headingRule, h]

theorem data_pat6 : "###### ".data = ['#', '#', '#', '#', '#', '#', ' '] := rfl
theorem data_pat5 : "##### ".data = ['#', '#', '#', '#', '#', ' '] := rfl
theorem data_pat4 : "#### ".data = ['#', '#', '#', '#', ' '] := rfl
theorem data_pat3 : "### ".data = ['#', '#', '#', ' '] := rfl
theorem data_pat2 : "## ".data = ['#', '#', ' '] := rfl
theorem data_pat1 : "# ".data = ['#', ' '] := rfl

theorem headingsStage_h1 (t : List Char) (h : '\n' ∉ t) :
    headingsStage ('#' :: ' ' :: t) = 'h' :: '1' :: '.' :: ' ' :: t := by
  have h0 : '\n' ∉ ('#' :: ' ' :: t) := by simpa using h
  have skip6 : "###### ".data.isPrefixOf ('#' :: ' ' :: t) = false := by
    rw [data_pat6, isPrefixOf_cons_cons]
    exact isPrefixOf_cons_ne _ _ _ _ (by decide)
  have skip5 : "##### ".data.isPrefixOf ('#' :: ' ' :: t) = false := by
    rw [data_pat5, isPrefixOf_cons_cons]
    exact isPrefixOf_cons_ne _ _ _ _ (by decide)
  have skip4 : "#### ".data.isPrefixOf ('#' :: ' ' :: t) = false := by
    rw [data_pat4, isPrefixOf_cons_cons]
    exact isPrefixOf_cons_ne _ _ _ _ (by decide)
  have skip3 : "### ".data.isPrefixOf ('#' :: ' ' :: t) = false := by
    rw [data_pat3, isPrefixOf_cons_cons]
    exact isPrefixOf_cons_ne _ _ _ _ (by decide)
  have skip2 : "## ".data.isPrefixOf ('#' :: ' ' :: t) = false := by
    rw [data_pat2, isPrefixOf_cons_cons]
    exact isPrefixOf_cons_ne _ _ _ _ (by decide)
  simp only [headingsStage]
  rw [applyLines_noNl _ _ h0, headingRule_skip _ _ _ skip6]
  rw [applyLines_noNl _ _ h0, headingRule_skip _ _ _ skip5]
  rw [applyLines_noNl _ _ h0, headingRule_skip _ _ _ skip4]
  rw [applyLines_noNl _ _ h0, headingRule_skip _ _ _ skip3]
  rw [applyLines_noNl _ _ h0, headingRule_skip _ _ _ skip2]
  rw [applyLines_noNl _ _ h0]
  exact headingRule_match "# ".data "h1. ".data t

theorem headingsStage_h2 (t : List Char) (h : '\n' ∉ t) :
    headingsStage ('#' :: '#' :: ' ' :: t) = 'h' :: '2' :: '.' :: ' ' :: t := by
  have h0 : '\n' ∉ ('#' :: '#' :: ' ' :: t) := by simpa using h
  have h1 : '\n' ∉ ('h' :: '2' :: '.' :: ' ' :: t) := by simpa using h
  have skip6 : "###### ".data.isPrefixOf ('#' :: '#' :: ' ' :: t) = false := by
    rw [data_pat6, isPrefixOf_cons_cons, isPrefixOf_cons_cons]
    exact isPrefixOf_cons_ne _ _ _ _ (by decide)
  have skip5 : "##### ".data.isPrefixOf ('#' :: '#' :: ' ' :: t) = false := by
    rw [data_pat5, isPrefixOf_cons_cons, isPrefixOf_cons_cons]
    exact isPrefixOf_cons_ne _ _ _ _ (by decide)
  have skip4 : "#### ".data.isPrefixOf ('#' :: '#' :: ' ' :: t) = false := by
    rw [data_pat4, isPrefixOf_cons_cons, isPrefixOf_cons_cons]
    exact isPrefixOf_cons_ne _ _ _ _ (by decide)
  have skip3 : "### ".data.isPrefixOf ('#' :: '#' :: ' ' :: t) = false := by
    rw [data_pat3, isPrefixOf_cons_cons, isPrefixOf_cons_cons]
    exact isPrefixOf_cons_ne _ _ _ _ (by decide)
  have skip1 : "# ".data.isPrefixOf ('h' :: '2' :: '.' :: ' ' :: t) = false := by
    rw [data_pat1]
    exact isPrefixOf_cons_ne _ _ _ _ (by decide)
  simp only [headingsStage]
  rw [applyLines_noNl _ _ h0, headingRule_skip _ _ _ skip6]
  rw [applyLines_noNl _ _ h0, headingRule_skip _ _ _ skip5]
  rw [applyLines_noNl _ _ h0, headingRule_skip _ _ _ skip4]
  rw [applyLines_noNl _ _ h0, headingRule_skip _ _ _ skip3]
  rw [applyLines_noNl _ _ h0,
    show headingRule "## ".data "h2. ".data ('#' :: '#' :: ' ' :: t) =
      'h' :: '2' :: '.' :: ' ' :: t from headingRule_match "## ".data "h2. ".data t]
  rw [applyLines_noNl _ _ h1, headingRule_skip _ _ _ skip1]

theorem headingsStage_h3 (t : List Char) (h : '\n' ∉ t) :
    headingsStage ('#' :: '#' :: '#' :: ' ' :: t) = 'h' :: '3' :: '.' :: ' ' :: t := by
  have h0 : '\n' ∉ ('#' :: '#' :: '#' :: ' ' :: t) := by simpa using h
  have h1 : '\n' ∉ ('h' :: '3' :: '.' :: ' ' :: t) := by simpa using h
  have skip6 : "###### ".data.isPrefixOf ('#' :: '#' :: '#' :: ' ' :: t) = false := by
    rw [data_pat6, isPrefixOf_cons_cons, isPrefixOf_cons_cons, isPrefixOf_cons_cons]
    exact isPrefixOf_cons_ne _ _ _ _ (by decide)
  have skip5 : "##### ".data.isPrefixOf ('#' :: '#' :: '#' :: ' ' :: t) = false := by
    rw [data_pat5, isPrefixOf_cons_cons, isPrefixOf_cons_cons, isPrefixOf_cons_cons]
    exact isPrefixOf_cons_ne _ _ _ _ (by decide)
  have skip4 : "#### ".data.isPrefixOf ('#' :: '#' :: '#' :: ' ' :: t) = false := by
    rw [data_pat4, isPrefixOf_cons_cons, isPrefixOf_cons_cons, isPrefixOf_cons_cons]
    exact isPrefixOf_cons_ne _ _ _ _ (by decide)
  have skip2 : "## ".data.isPrefixOf ('h' :: '3' :: '.' :: ' ' :: t) = false := by
    rw [data_pat2]
    exact isPrefixOf_cons_ne _ _ _ _ (by decide)
  have skip1 : "# ".data.isPrefixOf ('h' :: '3' :: '.' :: ' ' :: t) = false := by
    rw [data_pat1]
    exact isPrefixOf_cons_ne _ _ _ _ (by decide)
  simp only [headingsStage]
  rw [applyLines_noNl _ _ h0, headingRule_skip _ _ _ skip6]
  rw [applyLines_noNl _ _ h0, headingRule_skip _ _ _ skip5]
  rw [applyLines_noNl _ _ h0, headingRule_skip _ _ _ skip4]
  rw [applyLines_noNl _ _ h0,
    show headingRule "### ".data "h3. ".data ('#' :: '#' :: '#' :: ' ' :: t) =
      'h' :: '3' :: '.' :: ' ' :: t from headingRule_match "### ".data "h3. ".data t]
  rw [applyLines_noNl _ _ h1, headingRule_skip _ _ _ skip2]
  rw [applyLines_noNl _ _ h1, headingRule_skip _ _ _ skip1]

theorem headingsStage_h4 (t : List Char) (h : '\n' ∉ t) :
    headingsStage ('#' :: '#' :: '#' :: '#' :: ' ' :: t) = 'h' :: '3' :: '.' :: ' ' :: t := by
  have h0 : '\n' ∉ ('#' :: '#' :: '#' :: '#' :: ' ' :: t) := by simpa using h
  have h1 : '\n' ∉ ('h' :: '3' :: '.' :: ' ' :: t) := by simpa using h
  have skip6 : "###### ".data.isPrefixOf ('#' :: '#' :: '#' :: '#' :: ' ' :: t) = false := by
    rw [data_pat6, isPrefixOf_cons_cons, isPrefixOf_cons_cons, isPrefixOf_cons_cons,
      isPrefixOf_cons_cons]
    exact isPrefixOf_cons_ne _ _ _ _ (by decide)
  have skip5 : "##### ".data.isPrefixOf ('#' :: '#' :: '#' :: '#' :: ' ' :: t) = false := by
    rw [data_pat5, isPrefixOf_cons_cons, isPrefixOf_cons_cons, isPrefixOf_cons_cons,
      isPrefixOf_cons_cons]
    exact isPrefixOf_cons_ne _ _ _ _ (by decide)
  have skip3 : "### ".data.isPrefixOf ('h' :: '3' :: '.' :: ' ' :: t) = false := by
    rw [data_pat3]
    exact isPrefixOf_cons_ne _ _ _ _ (by decide)
  have skip2 : "## ".data.isPrefixOf ('h' :: '3' :: '.' :: ' ' :: t) = false := by
    rw [data_pat2]
    exact isPrefixOf_cons_ne _ _ _ _ (by decide)
  have skip1 : "# ".data.isPrefixOf ('h' :: '3' :: '.' :: ' ' :: t) = false := by
    rw [data_pat1]
    exact isPrefixOf_cons_ne _ _ _ _ (by decide)
  simp only [headingsStage]
  rw [applyLines_noNl _ _ h0, headingRule_skip _ _ _ skip6]
  rw [applyLines_noNl _ _ h0, headingRule_skip _ _ _ skip5]
  rw [applyLines_noNl _ _ h0,
    show headingRule "#### ".data "h3. ".data ('#' :: '#' :: '#' :: '#' :: ' ' :: t) =
      'h' :: '3' :: '.' :: ' ' :: t from headingRule_match "#### ".data "h3. ".data t]
  rw [applyLines_noNl _ _ h1, headingRule_skip _ _ _ skip3]
  rw [applyLines_noNl _ _ h1, headingRule_skip _ _ _ skip2]
  rw [applyLines_noNl _ _ h1, headingRule_skip _ _ _ skip1]

theorem headingsStage_h5 (t : List Char) (h : '\n' ∉ t) :
    headingsStage ('#' :: '#' :: '#' :: '#' :: '#' :: ' ' :: t) =
      'h' :: '5' :: '.' :: ' ' :: t := by
  have h0 : '\n' ∉ ('#' :: '#' :: '#' :: '#' :: '#' :: ' ' :: t) := by simpa using h
  have h1 : '\n' ∉ ('h' :: '5' :: '.' :: ' ' :: t) := by simpa using h
  have skip6 : "###### ".data.isPrefixOf ('#' :: '#' :: '#' :: '#' :: '#' :: ' ' :: t)
      = false := by
    rw [data_pat6, isPrefixOf_cons_cons, isPrefixOf_cons_cons, isPrefixOf_cons_cons,
      isPrefixOf_cons_cons, isPrefixOf_cons_cons]
    exact isPrefixOf_cons_ne _ _ _ _ (by decide)
  have skip4 : "#### ".data.isPrefixOf ('h' :: '5' :: '.' :: ' ' :: t) = false := by
    rw [data_pat4]
    exact isPrefixOf_cons_ne _ _ _ _ (by decide)
  have skip3 : "### ".data.isPrefixOf ('h' :: '5' :: '.' :: ' ' :: t) = false := by
    rw [data_pat3]
    exact isPrefixOf_cons_ne _ _ _ _ (by decide)
  have skip2 : "## ".data.isPrefixOf ('h' :: '5' :: '.' :: ' ' :: t) = false := by
    rw [data_pat2]
    exact isPrefixOf_cons_ne _ _ _ _ (by decide)
  have skip1 : "# ".data.isPrefixOf ('h' :: '5' :: '.' :: ' ' :: t) = false := by
    rw [data_pat1]
    exact isPrefixOf_cons_ne _ _ _ _ (by decide)
  simp only [headingsStage]
  rw [applyLines_noNl _ _ h0, headingRule_skip _ _ _ skip6]
  rw [applyLines_noNl _ _ h0,
    show headingRule "##### ".data "h5. ".data ('#' :: '#' :: '#' :: '#' :: '#' :: ' ' :: t) =
      'h' :: '5' :: '.' :: ' ' :: t from headingRule_match "##### ".data "h5. ".data t]
  rw [applyLines_noNl _ _ h1, headingRule_skip _ _ _ skip4]
  rw [applyLines_noNl _ _ h1, headingRule_skip _ _ _ skip3]
  rw [applyLines_noNl _ _ h1, headingRule_skip _ _ _ skip2]
  rw [applyLines_noNl _ _ h1, headingRule_skip _ _ _ skip1]

theorem headingsStage_h6 (t : List Char) (h : '\n' ∉ t) :
    headingsStage ('#' :: '#' :: '#' :: '#' :: '#' :: '#' :: ' ' :: t) =
      'h' :: '6' :: '.' :: ' ' :: t := by
  have h0 : '\n' ∉ ('#' :: '#' :: '#' :: '#' :: '#' :: '#' :: ' ' :: t) := by simpa using h
  have h1 : '\n' ∉ ('h' :: '6' :: '.' :: ' ' :: t) := by simpa using h
  have skip5 : "##### ".data.isPrefixOf ('h' :: '6' :: '.' :: ' ' :: t) = false := by
    rw [data_pat5]
    exact isPrefixOf_cons_ne _ _ _ _ (by decide)
  have skip4 : "#### ".data.isPrefixOf ('h' :: '6' :: '.' :: ' ' :: t) = false := by
    rw [data_pat4]
    exact isPrefixOf_cons_ne _ _ _ _ (by decide)
  have skip3 : "### ".data.isPrefixOf ('h' :: '6' :: '.' :: ' ' :: t) = false := by
    rw [data_pat3]
    exact isPrefixOf_cons_ne _ _ _ _ (by decide)
  have skip2 : "## ".data.isPrefixOf ('h' :: '6' :: '.' :: ' ' :: t) = false := by
    rw [data_pat2]
    exact isPrefixOf_cons_ne _ _ _ _ (by decide)
  have skip1 : "# ".data.isPrefixOf ('h' :: '6' :: '.' :: ' ' :: t) = false := by
    rw [data_pat1]
    exact isPrefixOf_cons_ne _ _ _ _ (by decide)
  simp only [headingsStage]
  rw [applyLines_noNl _ _ h0,
    show headingRule "###### ".data "h6. ".data
        ('#' :: '#' :: '#' :: '#' :: '#' :: '#' :: ' ' :: t) =
      'h' :: '6' :: '.' :: ' ' :: t from headingRule_match "###### ".data "h6. ".data t]
  rw [applyLines_noNl _ _ h1, headingRule_skip _ _ _ skip5]
  rw [applyLines_noNl _ _ h1, headingRule_skip _ _ _ skip4]
  rw [applyLines_noNl _ _ h1, headingRule_skip _ _ _ skip3]
  rw [applyLines_noNl _ _ h1, headingRule_skip _ _ _ skip2]
  rw [applyLines_noNl _ _ h1, headingRule_skip _ _ _ skip1]

theorem all_plain_cons (c : Char) (s : List Char) (hc : plainChar c = true)
    (hs : s.all plainChar = true) : (c :: s).all plainChar = true := by
  simp [List.all_cons, hc, hs]

/-- C5: on a heading line whose text consists of characters no other rule
reacts to, the translation of a line of N hash marks, a space and the text is
exactly the destination prefix hN followed by a dot, a space and the text,
for N in 1, 2, 3, 5, 6; a level-4 heading line is rewritten with the level-3
prefix h3. -/
theorem gh2j_headings (t : String) (h : t.data.all plainChar = true) :
    GitHubToJiraBody ("# " ++ t) = "h1. " ++ t ∧
    GitHubToJiraBody ("## " ++ t) = "h2. " ++ t ∧
    GitHubToJiraBody ("### " ++ t) = "h3. " ++ t ∧
    GitHubToJiraBody ("##### " ++ t) = "h5. " ++ t ∧
    GitHubToJiraBody ("###### " ++ t) = "h6. " ++ t ∧
    GitHubToJiraBody ("#### " ++ t) = "h3. " ++ t := by
  obtain ⟨l⟩ := t
  have hl : l.all plainChar = true := h
  have hnl : '\n' ∉ l := plain_not_mem l hl '\n' rfl
  refine ⟨?_, ?_, ?_, ?_, ?_, ?_⟩
  · show String.mk (blocksStage (linksStage (effectsStage (headingsStage
        ('#' :: ' ' :: l))))) = String.mk ('h' :: '1' :: '.' :: ' ' :: l)
    have hp : ('h' :: '1' :: '.' :: ' ' :: l).all plainChar = true :=
      all_plain_cons _ _ rfl (all_plain_cons _ _ rfl (all_plain_cons _ _ rfl
        (all_plain_cons _ _ rfl hl)))
    rw [headingsStage_h1 l hnl, effectsStage_id _ hp, linksStage_id _ hp, blocksStage_id _ hp]
  · show String.mk (blocksStage (linksStage (effectsStage (headingsStage
        ('#' :: '#' :: ' ' :: l))))) = String.mk ('h' :: '2' :: '.' :: ' ' :: l)
    have hp : ('h' :: '2' :: '.' :: ' ' :: l).all plainChar = true :=
      all_plain_cons _ _ rfl (all_plain_cons _ _ rfl (all_plain_cons _ _ rfl
        (all_plain_cons _ _ rfl hl)))
    rw [headingsStage_h2 l hnl, effectsStage_id _ hp, linksStage_id _ hp, blocksStage_id _ hp]
  · show String.mk (blocksStage (linksStage (effectsStage (headingsStage
        ('#' :: '#' :: '#' :: ' ' :: l))))) = String.mk ('h' :: '3' :: '.' :: ' ' :: l)
    have hp : ('h' :: '3' :: '.' :: ' ' :: l).all plainChar = true :=
      all_plain_cons _ _ rfl (all_plain_cons _ _ rfl (all_plain_cons _ _ rfl
        (all_plain_cons _ _ rfl hl)))
    rw [headingsStage_h3 l hnl, effectsStage_id _ hp, linksStage_id _ hp, blocksStage_id _ hp]
  · show String.mk (blocksStage (linksStage (effectsStage (headingsStage
        ('#' :: '#' :: '#' :: '#' :: '#' :: ' ' :: l))))) =
      String.mk ('h' :: '5' :: '.' :: ' ' :: l)
    have hp : ('h' :: '5' :: '.' :: ' ' :: l).all plainChar = true :=
      all_plain_cons _ _ rfl (all_plain_cons _ _ rfl (all_plain_cons _ _ rfl
        (all_plain_cons _ _ rfl hl)))
    rw [headingsStage_h5 l hnl, effectsStage_id _ hp, linksStage_id _ hp, blocksStage_id _ hp]
  · show String.mk (blocksStage (linksStage (effectsStage (headingsStage
        ('#' :: '#' :: '#' :: '#' :: '#' :: '#' :: ' ' :: l))))) =
      String.mk ('h' :: '6' :: '.' :: ' ' :: l)
    have hp : ('h' :: '6' :: '.' :: ' ' :: l).all plainChar = true :=
      all_plain_cons _ _ rfl (all_plain_cons _ _ rfl (all_plain_cons _ _ rfl
        (all_plain_cons _ _ rfl hl)))
    rw [headingsStage_h6 l hnl, effectsStage_id _ hp, linksStage_id _ hp, blocksStage_id _ hp]
  · show String.mk (blocksStage (linksStage (effectsStage (headingsStage
        ('#' :: '#' :: '#' :: '#' :: ' ' :: l))))) = String.mk ('h' :: '3' :: '.' :: ' ' :: l)
    have hp : ('h' :: '3' :: '.' :: ' ' :: l).all plainChar = true :=
      all_plain_cons _ _ rfl (all_plain_cons _ _ rfl (all_plain_cons _ _ rfl
        (all_plain_cons _ _ rfl hl)))
    rw [headingsStage_h4 l hnl, effectsStage_id _ hp, linksStage_id _ hp, blocksStage_id _ hp]

theorem gh2j_headings_witness :
    ("Title" : String).data.all plainChar = true ∧
    (GitHubToJiraBody ("# " ++ "Title") = "h1. " ++ "Title" ∧
     GitHubToJiraBody ("## " ++ "Title") = "h2. " ++ "Title" ∧
     GitHubToJiraBody ("### " ++ "Title") = "h3. " ++ "Title" ∧
     GitHubToJiraBody ("##### " ++ "Title") = "h5. " ++ "Title" ∧
     GitHubToJiraBody ("###### " ++ "Title") = "h6. " ++ "Title" ∧
     GitHubToJiraBody ("#### " ++ "Title") = "h3. " ++ "Title") :=
  ⟨by decide, gh2j_headings "Title" (by decide)⟩

end IssueSync
